import Mathlib

/-!
Shallow embedding of the probabilistic core of the flight-delay forecaster
(package `flight_delay_bayes`), together with theorems settling the frozen
claims about its specification.

Python floats are modelled as exact rationals (`ℚ`) where the code performs
only field arithmetic and comparisons, and as real numbers (`ℝ`) where the
code calls `np.exp` (the delay-curve module).  Python exceptions are
modelled with `Except`; in-place mutation of the Beta posterior is modelled
by explicit state passing (each update returns the new state, and a raised
exception returns no state, so the parameters are unchanged on error, just
as the Python code raises before mutating).
-/

namespace FlightDelay

/-! ### Beta-Binomial conjugate updater
Embedding of `src/flight_delay_bayes/bayes/updater.py` (`BetaBinomialModel`). -/

/-- Error raised by the updater for malformed parameters or a non-binary
observation (`ValueError` in the source; `InvalidParameter` in the spec's
taxonomy). -/
inductive UpdaterError where
  | invalidParameter
deriving Repr, DecidableEq

/-- `alpha` counts late flights, `beta` counts on-time flights
(`BetaBinomialModel` dataclass fields). -/
structure BetaBinomialModel where
  alpha : ℚ
  beta : ℚ
deriving Repr, DecidableEq

/-- `BetaBinomialModel.__post_init__`: constructing the model fails unless
both parameters are strictly positive. -/
def BetaBinomialModel.create (alpha beta : ℚ) :
    Except UpdaterError BetaBinomialModel :=
  if alpha ≤ 0 ∨ beta ≤ 0 then .error .invalidParameter
  else .ok ⟨alpha, beta⟩

/-- `BetaBinomialModel.update`: reject observations outside `{0, 1}`,
otherwise increment `alpha` on a late observation (`1`) and `beta` on an
on-time observation (`0`). -/
def BetaBinomialModel.update (m : BetaBinomialModel) (observation : ℤ) :
    Except UpdaterError BetaBinomialModel :=
  if observation ≠ 0 ∧ observation ≠ 1 then .error .invalidParameter
  else if observation = 1 then .ok ⟨m.alpha + 1, m.beta⟩
  else .ok ⟨m.alpha, m.beta + 1⟩

/-- The always-successful path of `update` for an observation already known
to be binary, as used by the walk-forward evaluator
(`model.update(int(flight["late"]))`). -/
def BetaBinomialModel.updateLate (m : BetaBinomialModel) (late : Bool) :
    BetaBinomialModel :=
  if late then ⟨m.alpha + 1, m.beta⟩ else ⟨m.alpha, m.beta + 1⟩

/-- `BetaBinomialModel.predictive_p_on_time`: `beta / (alpha + beta)`. -/
def BetaBinomialModel.predictive_p_on_time (m : BetaBinomialModel) : ℚ :=
  m.beta / (m.alpha + m.beta)

/-- Posterior mean `alpha / (alpha + beta)` (the probability of late). -/
def BetaBinomialModel.posteriorMean (m : BetaBinomialModel) : ℚ :=
  m.alpha / (m.alpha + m.beta)

/-- `k` consecutive late-observation updates (`update(1)` repeated); the
error branch is unreachable because `1` is a valid observation. -/
def BetaBinomialModel.lateUpdates (m : BetaBinomialModel) : ℕ → BetaBinomialModel
  | 0 => m
  | k + 1 =>
      match (BetaBinomialModel.lateUpdates m k).update 1 with
      | .ok m2 => m2
      | .error _ => BetaBinomialModel.lateUpdates m k

/-! ### Prior estimator
Embedding of `src/flight_delay_bayes/bayes/prior_estimator.py`. -/

/-- One row of the `historic_flights` table, restricted to the columns the
embedded components read.  `dateKey` is a chronological sort key standing
for `flight_date`; `year` is `strftime('%Y', flight_date)`. -/
structure Row where
  carrier : String
  origin : String
  dest : String
  year : ℤ
  dateKey : ℕ
  late : Bool
deriving Repr, DecidableEq

/-- The historical-counts collaborator as the code can observe it: the
database file may be missing, may exist but be unopenable
(`duckdb.IOException`), the `historic_flights` table may be absent
(`duckdb.CatalogException`), or the table may be readable with some rows. -/
inductive Store where
  | missingFile
  | unopenable
  | noTable
  | tables (rows : List Row)
deriving Repr, DecidableEq

/-- `_query_counts` applied to a readable table: total (`n`) and late (`k`)
counts for the given route, with no restriction on the flight year. -/
def queryCounts (rows : List Row) (carrier origin dest : String) : ℕ × ℕ :=
  let matching := rows.filter fun r =>
    r.carrier == carrier && r.origin == origin && r.dest == dest
  (matching.length, (matching.filter (fun r => r.late)).length)

/-- The Jeffreys-prior-plus-counts formula applied to a concrete row list
(the body of `compute_beta_prior` after `_query_counts` returned). -/
def computeBetaPriorRows (rows : List Row) (carrier origin dest : String) :
    ℚ × ℚ × ℕ :=
  let nk := queryCounts rows carrier origin dest
  (0.5 + (nk.2 : ℚ), 0.5 + ((nk.1 : ℚ) - (nk.2 : ℚ)), nk.1)

/-- `compute_beta_prior`: every unavailable-store branch returns the
Jeffreys prior `(0.5, 0.5, 0)`; a readable table goes through
`_query_counts` (which itself maps a missing table to counts `(0, 0)`),
then `alpha = 0.5 + k`, `beta = 0.5 + (n - k)`.  The function is total:
no branch raises. -/
def compute_beta_prior (store : Store) (carrier origin dest : String) :
    ℚ × ℚ × ℕ :=
  match store with
  | .missingFile => (0.5, 0.5, 0)
  | .unopenable => (0.5, 0.5, 0)
  | .noTable => computeBetaPriorRows [] carrier origin dest
  | .tables rows => computeBetaPriorRows rows carrier origin dest

/-! ### Walk-forward validator
Embedding of `src/flight_delay_bayes/eval/walk_forward.py`:
`_evaluate_baseline_model` (per-route predict-then-update evaluation) and
the aggregate acceptance gate of `print_validation_summary`. -/

/-- Route key as produced by
`test_df[["carrier", "origin", "dest"]].drop_duplicates()`. -/
def Row.routeKey (r : Row) : String × String × String :=
  (r.carrier, r.origin, r.dest)

/-- Whether a row belongs to the given route (the boolean mask
`(test_df.carrier == carrier) & (test_df.origin == origin) &
(test_df.dest == dest)`). -/
def routeMatches (key : String × String × String) (r : Row) : Bool :=
  r.carrier == key.1 && r.origin == key.2.1 && r.dest == key.2.2

/-- Distinct routes of the test set in first-occurrence order
(`drop_duplicates` keeps the first occurrence of each key). -/
def distinctRoutes (l : List Row) : List (String × String × String) :=
  (l.map Row.routeKey).foldl
    (fun acc k => if k ∈ acc then acc else acc ++ [k]) []

/-- Insert a row into a date-sorted list, keeping earlier rows first among
equal dates. -/
def insertByDate (r : Row) : List Row → List Row
  | [] => [r]
  | s :: rest =>
      if r.dateKey ≤ s.dateKey then r :: s :: rest else s :: insertByDate r rest

/-- `route_test.sort_values("flight_date")`: sort the route's test flights
chronologically. -/
def sortByDate : List Row → List Row
  | [] => []
  | r :: rest => insertByDate r (sortByDate rest)

/-- The per-route sequential loop: for each flight, record the prediction
`p_late = 1 - predictive_p_on_time()` together with the observed label
**before** updating the model with that observation. -/
def processFlights : BetaBinomialModel → List Row → List (ℚ × Bool)
  | _, [] => []
  | m, f :: rest =>
      (1 - m.predictive_p_on_time, f.late) ::
        processFlights (m.updateLate f.late) rest

/-- `WalkForwardValidator._evaluate_baseline_model`, reduced to the
(prediction, label) pairs it accumulates.  `trainDf` is the training
partition the method receives; the source never reads it — each route's
prior is computed by `compute_beta_prior(carrier, origin, dest,
self.db_path)`, i.e. over **all** rows of the database `db`, with no year
filter. -/
def evaluateBaselineModel (db : List Row) (trainDf testDf : List Row) :
    List (ℚ × Bool) :=
  (distinctRoutes testDf).foldr
    (fun key acc =>
      let routeTest := testDf.filter (routeMatches key)
      let prior := compute_beta_prior (Store.tables db) key.1 key.2.1 key.2.2
      processFlights ⟨prior.1, prior.2.1⟩ (sortByDate routeTest) ++ acc)
    []

/-- Modelled from the spec: the baseline evaluation as §4.5 step 2 states
it — "seed a fresh ConjugateUpdater from PriorEstimator **computed on the
training window**", everything else (chronological order,
predict-then-update) as in the source.  The only change from
`evaluateBaselineModel` is that the prior is computed from `trainDf`
instead of the whole database. -/
def evaluateBaselineSpec (trainDf testDf : List Row) : List (ℚ × Bool) :=
  (distinctRoutes testDf).foldr
    (fun key acc =>
      let routeTest := testDf.filter (routeMatches key)
      let prior := computeBetaPriorRows trainDf key.1 key.2.1 key.2.2
      processFlights ⟨prior.1, prior.2.1⟩ (sortByDate routeTest) ++ acc)
    []

/-- The per-fold fields of `run_fold` consumed by the aggregate gate:
candidate (hierarchical) Brier score, baseline Brier score, and the
derived `hier_wins = hier_brier < baseline_brier`. -/
structure FoldResult where
  baselineBrier : ℚ
  hierBrier : ℚ
  hierWins : Bool
deriving Repr, DecidableEq

/-- `run_fold`'s result row: `hier_wins` is computed as
`hier_metrics["brier"] < baseline_metrics["brier"]`. -/
def mkFoldResult (baselineBrier hierBrier : ℚ) : FoldResult :=
  ⟨baselineBrier, hierBrier, decide (hierBrier < baselineBrier)⟩

/-- `results_df["hier_wins"].sum()`: number of folds the candidate wins. -/
def winsCount (folds : List FoldResult) : ℕ :=
  (folds.filter fun f => f.hierWins).length

/-- `results_df["hier_brier"].mean()`: mean candidate Brier score. -/
def hierBrierMean (folds : List FoldResult) : ℚ :=
  ((folds.map fun f => f.hierBrier).sum) / (folds.length : ℚ)

/-- `max(1, int(0.8 * total_folds))`.  For every fold count `n` the float
product `0.8 * n` is `4n/5` plus a relative error below `2⁻⁵²`, and `int`
truncates toward zero, so the Python value is exactly `⌊4n/5⌋`; the
truncation can never reach the next integer because `4n/5` is at least
`1/5` below it whenever it is not already an integer. -/
def winsThreshold (n : ℕ) : ℕ :=
  max 1 (4 * n / 5)

/-- The aggregate acceptance gate of `print_validation_summary`:
`brier_ok = hier_brier_mean <= 0.125`, `wins_ok = wins >= max(1,
int(0.8*total_folds))`, `overall_pass = brier_ok and wins_ok`. -/
def acceptanceVerdict (folds : List FoldResult) : Bool :=
  decide (hierBrierMean folds ≤ 0.125) &&
    decide (winsThreshold folds.length ≤ winsCount folds)

/-! ### Delay-distribution model
Embedding of `src/flight_delay_bayes/bayes/delay_curve.py`
(`DelayPredictor`).  This module calls `np.exp`, so it is modelled over
`ℝ`. -/

/-- The delay-curve parameters read by `DelayPredictor.__init__` (which
performs no validation on them). -/
structure DelayCurve where
  mean_ontime_delay : ℝ
  mean_late_delay : ℝ
  threshold_prob : ℝ

/-- `DelayPredictor.predict_delay`: flat at `mean_ontime_delay` up to
`threshold_prob`, then linear interpolation toward `mean_late_delay`. -/
noncomputable def DelayCurve.predict_delay (c : DelayCurve) (late_probability : ℝ) : ℝ :=
  if late_probability ≤ c.threshold_prob then c.mean_ontime_delay
  else
    c.mean_ontime_delay +
      (late_probability - c.threshold_prob) / (1 - c.threshold_prob) *
        (c.mean_late_delay - c.mean_ontime_delay)

/-- Output record of `predict_threshold_probabilities` (the four
probability fields of the returned dict). -/
structure ThresholdProbs where
  p_late_15 : ℝ
  p_late_30 : ℝ
  p_late_45 : ℝ
  p_late_60 : ℝ

/-- `DelayPredictor.predict_threshold_probabilities`: fixed decay ratios
when the expected delay is below 15 minutes; otherwise an exponential
survival model with `lambda_param = 0.693 / (expected_delay - 15 + 1e-6)`
(and `1.0` when `expected_delay` equals 15 exactly), followed by the 80%
monotonicity caps and the non-negativity clamps. -/
noncomputable def DelayCurve.predict_threshold_probabilities
    (c : DelayCurve) (base_late_prob : ℝ) : ThresholdProbs :=
  let p15 := base_late_prob
  let expected_delay := c.predict_delay base_late_prob
  if expected_delay < 15 then
    ⟨p15, p15 * 0.3, p15 * 0.1, p15 * 0.05⟩
  else
    let lambda_param :=
      if expected_delay > 15 then 0.693 / (expected_delay - 15 + 1e-6) else 1.0
    let p30r := p15 * Real.exp (-lambda_param * (30 - 15))
    let p45r := p15 * Real.exp (-lambda_param * (45 - 15))
    let p60r := p15 * Real.exp (-lambda_param * (60 - 15))
    let p30 := min p30r (p15 * 0.8)
    let p45 := min p45r (p30 * 0.8)
    let p60 := min p60r (p45 * 0.8)
    ⟨p15, max 0 p30, max 0 p45, max 0 p60⟩

/-- The decay rate the source actually uses for expected delays of at
least 15 minutes: `0.693 / (expected_delay - 15 + 1e-6)` in the strict
branch and the fallback `1.0` at exactly 15. -/
noncomputable def codeLambda (c : DelayCurve) (p : ℝ) : ℝ :=
  if c.predict_delay p > 15 then 0.693 / (c.predict_delay p - 15 + 1e-6) else 1.0

/-- Modelled from the spec (§4.3 / claim C3 wording): the exponential
survival model anchored with `λ = ln 2 / (expected_delay - 15)` so that
`P(delay ≥ expected_delay) = 0.5`, followed by the same 80% caps and
non-negativity clamps as the source. -/
noncomputable def specThresholdProbs (c : DelayCurve) (base_late_prob : ℝ) :
    ThresholdProbs :=
  let p15 := base_late_prob
  let expected_delay := c.predict_delay base_late_prob
  let lam := Real.log 2 / (expected_delay - 15)
  let p30r := p15 * Real.exp (-(lam * 15))
  let p45r := p15 * Real.exp (-(lam * 30))
  let p60r := p15 * Real.exp (-(lam * 45))
  let p30 := min p30r (p15 * 0.8)
  let p45 := min p45r (p30 * 0.8)
  let p60 := min p60r (p45 * 0.8)
  ⟨p15, max 0 p30, max 0 p45, max 0 p60⟩

/-! ### Tiered prediction orchestrator
Embedding of the tier-selection and result-assembly logic of
`forecast_probability` in `src/flight_delay_bayes/bayes/pipeline.py`
(steps 3-5 and 8).  The external collaborators (live status, weather, the
hierarchical updater, the fast classifier) are modelled by their observable
outcomes: each tier's attempt either produces a probability or fails
(`None` / raised exception), which is all the downstream logic reads. -/

/-- Which tier produced the forecast (`hierarchical_used` /
`fast_model_used` / the Beta-Binomial fallback). -/
inductive Provenance where
  | hierarchical
  | fastClassifier
  | baseline
deriving Repr, DecidableEq

/-- The inputs `forecast_probability` branches on. `hierAvailable` is
`_get_online_updater() is not None`; `depHour` is
`_extract_dep_hour(scheduled_dep)`; `liveDelayMin` is `delay_minutes`
when `status in {"active", "landed"}` and the delay is present, else
`none`; `hierOutcome` / `fastOutcome` are the probabilities the tier-1 /
tier-2 calls would return (`none` when the call raises or returns
`None`); `store` is the database consulted by `compute_beta_prior`. -/
structure ForecastInputs where
  hierAvailable : Bool
  depHour : Option ℕ
  liveDelayMin : Option ℤ
  hierOutcome : Option ℚ
  fastOutcome : Option ℚ
  store : Store
  carrier : String
  origin : String
  dest : String

/-- The fields of the result dict the claims are about. -/
structure ForecastResult where
  p_late : ℚ
  alpha : ℚ
  beta : ℚ
  updated : Bool
  provenance : Provenance
deriving Repr, DecidableEq

/-- Tier 1 is attempted only when the online updater is loaded and a
departure hour could be extracted (`if online_updater and dep_hour is not
None`). -/
def tier1Result (inp : ForecastInputs) : Option ℚ :=
  if inp.hierAvailable && inp.depHour.isSome then inp.hierOutcome else none

/-- Tier 2 is attempted only when tier 1 left `p_late` as `None` and a
departure hour is available (`if p_late is None and dep_hour is not
None`). -/
def tier2Result (inp : ForecastInputs) : Option ℚ :=
  if inp.depHour.isSome then inp.fastOutcome else none

/-- The Tier-3 posterior (pipeline step 5): seed a `BetaBinomialModel`
from `compute_beta_prior` and, when a live observation is available,
update it once with `int(delay_min > 15)`. -/
def baselinePosterior (inp : ForecastInputs) : BetaBinomialModel :=
  let prior := compute_beta_prior inp.store inp.carrier inp.origin inp.dest
  match inp.liveDelayMin with
  | some d => BetaBinomialModel.updateLate ⟨prior.1, prior.2.1⟩ (decide (d > 15))
  | none => ⟨prior.1, prior.2.1⟩

/-- `forecast_probability`, reduced to the fields the claims read: tiers
attempted in order 1 → 2 → 3; any non-baseline success reports the dummy
parameters `alpha = beta = 1.0` ("Use dummy values for backward
compatibility"), while the baseline reports its actual posterior. -/
def forecast_probability (inp : ForecastInputs) : ForecastResult :=
  match tier1Result inp with
  | some p => ⟨p, 1, 1, inp.liveDelayMin.isSome, .hierarchical⟩
  | none =>
      match tier2Result inp with
      | some p => ⟨p, 1, 1, false, .fastClassifier⟩
      | none =>
          let m := baselinePosterior inp
          ⟨1 - m.predictive_p_on_time, m.alpha, m.beta,
            inp.liveDelayMin.isSome, .baseline⟩

/-! ### Concrete instances used by the theorems below -/

/-- Three completed folds: candidate Brier scores `0.1, 0.1, 0.1`
(mean `0.1`), of which the candidate wins two. -/
def cexFolds : List FoldResult :=
  [mkFoldResult 0.2 0.1, mkFoldResult 0.2 0.1, mkFoldResult 0.05 0.1]

/-- The §8 scenario: five folds, candidate Brier scores averaging `0.115`,
candidate wins all five. -/
def scenarioFolds : List FoldResult :=
  [mkFoldResult 0.2 0.115, mkFoldResult 0.2 0.115, mkFoldResult 0.2 0.115,
   mkFoldResult 0.2 0.115, mkFoldResult 0.2 0.115]

/-- A single historic flight on route `AA JFK→LAX`, flown in 2023 (the
fold's test year) and late. -/
def leakRow : Row :=
  { carrier := "AA", origin := "JFK", dest := "LAX",
    year := 2023, dateKey := 0, late := true }

/-- A database containing only `leakRow`: the training window up to 2022
is empty, the 2023 test partition is exactly `[leakRow]`. -/
def leakDb : List Row := [leakRow]

/-- Orchestrator inputs on which tier 1 is unavailable and the fast
classifier succeeds with probability `2/5`. -/
def fastInputs : ForecastInputs :=
  { hierAvailable := false, depHour := some 10, liveDelayMin := none,
    hierOutcome := none, fastOutcome := some (2/5),
    store := Store.missingFile,
    carrier := "AA", origin := "JFK", dest := "LAX" }

/-- The §8 scenario curve `{mean_ontime_delay: 2.0, mean_late_delay: 25.0,
threshold_prob: 0.3}`. -/
noncomputable def scenarioCurve : DelayCurve :=
  { mean_ontime_delay := 2, mean_late_delay := 25, threshold_prob := 0.3 }

/-- A curve with a negative on-time mean delay (flights that depart early
on average), as the unvalidated `__init__` accepts. -/
noncomputable def negCurve : DelayCurve :=
  { mean_ontime_delay := -1, mean_late_delay := 25, threshold_prob := 0.3 }

/-- A curve whose threshold probability exceeds 1, as the unvalidated
`__init__` accepts. -/
noncomputable def highThresholdCurve : DelayCurve :=
  { mean_ontime_delay := 0, mean_late_delay := 25, threshold_prob := 2 }

/-- A curve on which `predict_delay 1 = 30`, putting input `1` in the
exponential-survival regime. -/
noncomputable def expCurve : DelayCurve :=
  { mean_ontime_delay := 0, mean_late_delay := 30, threshold_prob := 1/2 }

/-! ### Theorems: conjugate updater (claims C7, C8) -/

/-- After `k` late updates the posterior is exactly `(alpha + k, beta)`. -/
theorem lateUpdates_eq (m : BetaBinomialModel) (k : ℕ) :
    m.lateUpdates k = ⟨m.alpha + (k : ℚ), m.beta⟩ := by
  induction k with
  | zero =>
      rw [Nat.cast_zero, add_zero]
      rfl
  | succ k ih =>
      simp only [BetaBinomialModel.lateUpdates, ih, BetaBinomialModel.update]
      norm_num
      ring

/-- Claim C7 (confirmed): creation fails with `InvalidParameter` unless
both parameters are strictly positive; `update` fails with
`InvalidParameter` (returning no new state, so the parameters are
unchanged) unless the observation is 0 or 1, and otherwise increments
`alpha` by exactly 1 on a late observation and `beta` by exactly 1 on an
on-time one; `create(0.5, 0.5)` followed by `update(1)` yields
`(alpha, beta) = (1.5, 0.5)` with `predictive_p_on_time() = 0.25` and
`p_late = 0.75`. -/
theorem beta_binomial_contract :
    (∀ a b : ℚ,
      (0 < a ∧ 0 < b → BetaBinomialModel.create a b = .ok ⟨a, b⟩) ∧
      (a ≤ 0 ∨ b ≤ 0 →
        BetaBinomialModel.create a b = .error .invalidParameter)) ∧
    (∀ (m : BetaBinomialModel) (o : ℤ), ¬(o = 0 ∨ o = 1) →
      m.update o = .error .invalidParameter) ∧
    (∀ m : BetaBinomialModel,
      m.update 1 = .ok ⟨m.alpha + 1, m.beta⟩ ∧
      m.update 0 = .ok ⟨m.alpha, m.beta + 1⟩) ∧
    ((BetaBinomialModel.create 0.5 0.5).bind fun m => m.update 1) =
      .ok ⟨1.5, 0.5⟩ ∧
    BetaBinomialModel.predictive_p_on_time ⟨1.5, 0.5⟩ = 0.25 ∧
    1 - BetaBinomialModel.predictive_p_on_time ⟨1.5, 0.5⟩ = 0.75 := by
  refine ⟨fun a b => ⟨fun h => ?_, fun h => ?_⟩, fun m o h => ?_,
    fun m => ⟨?_, ?_⟩, ?_, ?_, ?_⟩
  · have ha := not_le.mpr h.1
    have hb := not_le.mpr h.2
    simp [BetaBinomialModel.create, ha, hb]
  · simp [BetaBinomialModel.create, h]
  · push_neg at h
    simp [BetaBinomialModel.update, h.1, h.2]
  · simp [BetaBinomialModel.update]
  · simp [BetaBinomialModel.update]
  · norm_num [BetaBinomialModel.create, BetaBinomialModel.update, Except.bind]
  · norm_num [BetaBinomialModel.predictive_p_on_time]
  · norm_num [BetaBinomialModel.predictive_p_on_time]

/-- Witness for C7 at concrete inputs. -/
theorem beta_binomial_contract_witness :
    (0 < (2 : ℚ) ∧ 0 < (3 : ℚ)) ∧
    BetaBinomialModel.create 2 3 = .ok ⟨2, 3⟩ ∧
    ¬((5 : ℤ) = 0 ∨ (5 : ℤ) = 1) ∧
    BetaBinomialModel.update ⟨2, 3⟩ 5 = .error .invalidParameter :=
  ⟨⟨by norm_num, by norm_num⟩,
    (beta_binomial_contract.1 2 3).1 ⟨by norm_num, by norm_num⟩,
    by norm_num,
    beta_binomial_contract.2.1 ⟨2, 3⟩ 5 (by norm_num)⟩

/-- Claim C8 (confirmed): for every valid posterior and every number of
consecutive late-observation updates already applied, one further late
update strictly increases the posterior mean `alpha / (alpha + beta)`. -/
theorem posterior_mean_increases (a b : ℚ) (ha : 0 < a) (hb : 0 < b) (k : ℕ) :
    (BetaBinomialModel.lateUpdates ⟨a, b⟩ k).posteriorMean <
      (BetaBinomialModel.lateUpdates ⟨a, b⟩ (k + 1)).posteriorMean := by
  rw [lateUpdates_eq, lateUpdates_eq]
  simp only [BetaBinomialModel.posteriorMean]
  have hk : (0 : ℚ) ≤ (k : ℚ) := Nat.cast_nonneg k
  have h1 : (0 : ℚ) < a + (k : ℚ) + b := by linarith
  have h2 : (0 : ℚ) < a + ((k : ℚ) + 1) + b := by linarith
  rw [div_lt_div_iff₀ (by linarith) (by linarith)]
  push_cast
  nlinarith

/-- Witness for C8: the Jeffreys prior strictly gains mean on its first
late observation. -/
theorem posterior_mean_increases_witness :
    0 < (0.5 : ℚ) ∧
    (BetaBinomialModel.lateUpdates ⟨0.5, 0.5⟩ 0).posteriorMean <
      (BetaBinomialModel.lateUpdates ⟨0.5, 0.5⟩ 1).posteriorMean :=
  ⟨by norm_num, posterior_mean_increases 0.5 0.5 (by norm_num) (by norm_num) 0⟩

/-! ### Theorems: prior estimator (claim C9) -/

/-- Claim C9 (confirmed): with a readable table the prior is
`alpha = 0.5 + k_late`, `beta = 0.5 + (n - k_late)` over the route's
historical counts; every unavailable-store shape (missing database file,
unopenable file, missing table) yields the Jeffreys prior `(0.5, 0.5, 0)`;
and a route with no history also yields `(0.5, 0.5, 0)`.  The embedded
function is total, so no input raises. -/
theorem beta_prior_fallback :
    (∀ (rows : List Row) (carrier origin dest : String),
      compute_beta_prior (Store.tables rows) carrier origin dest =
        (0.5 + ((queryCounts rows carrier origin dest).2 : ℚ),
          0.5 + (((queryCounts rows carrier origin dest).1 : ℚ) -
            ((queryCounts rows carrier origin dest).2 : ℚ)),
          (queryCounts rows carrier origin dest).1)) ∧
    (∀ carrier origin dest : String,
      compute_beta_prior Store.missingFile carrier origin dest =
          (0.5, 0.5, 0) ∧
        compute_beta_prior Store.unopenable carrier origin dest =
          (0.5, 0.5, 0) ∧
        compute_beta_prior Store.noTable carrier origin dest =
          (0.5, 0.5, 0)) ∧
    (∀ (rows : List Row) (carrier origin dest : String),
      (∀ r ∈ rows, routeMatches (carrier, origin, dest) r = false) →
      compute_beta_prior (Store.tables rows) carrier origin dest =
        (0.5, 0.5, 0)) := by
  refine ⟨fun rows c o d => rfl, fun c o d => ⟨rfl, rfl, by norm_num
    [compute_beta_prior, computeBetaPriorRows, queryCounts]⟩,
    fun rows c o d h => ?_⟩
  have hf : rows.filter
      (fun r => r.carrier == c && r.origin == o && r.dest == d) = [] := by
    rw [List.filter_eq_nil_iff]
    intro r hr
    have hm := h r hr
    simp only [routeMatches] at hm
    simp [hm]
  simp [compute_beta_prior, computeBetaPriorRows, queryCounts, hf]

/-- Witness for C9: the Jeffreys fallback on a one-row table that does not
contain the queried route. -/
theorem beta_prior_fallback_witness :
    (∀ r ∈ leakDb, routeMatches ("DL", "ATL", "SFO") r = false) ∧
    compute_beta_prior (Store.tables leakDb) "DL" "ATL" "SFO" =
      (0.5, 0.5, 0) :=
  ⟨by decide, beta_prior_fallback.2.2 leakDb "DL" "ATL" "SFO" (by decide)⟩

/-! ### Theorems: walk-forward validator (claims C1, C2) -/

/-- `run_fold` marks a fold as a candidate win exactly when the candidate
Brier score is strictly below the baseline's. -/
theorem mkFoldResult_wins (b h : ℚ) (hw : h < b) :
    mkFoldResult b h = ⟨b, h, true⟩ := by
  simp [mkFoldResult, hw]

/-- A fold whose candidate Brier score is not below the baseline's is not
a win. -/
theorem mkFoldResult_loses (b h : ℚ) (hl : b ≤ h) :
    mkFoldResult b h = ⟨b, h, false⟩ := by
  simp [mkFoldResult, not_lt.mpr hl]

/-- The three counterexample folds with their win flags evaluated. -/
theorem cexFolds_eval :
    cexFolds = [⟨0.2, 0.1, true⟩, ⟨0.2, 0.1, true⟩, ⟨0.05, 0.1, false⟩] := by
  simp only [cexFolds]
  rw [mkFoldResult_wins 0.2 0.1 (by norm_num),
    mkFoldResult_loses 0.05 0.1 (by norm_num)]

/-- The five scenario folds with their win flags evaluated. -/
theorem scenarioFolds_eval :
    scenarioFolds = [⟨0.2, 0.115, true⟩, ⟨0.2, 0.115, true⟩,
      ⟨0.2, 0.115, true⟩, ⟨0.2, 0.115, true⟩, ⟨0.2, 0.115, true⟩] := by
  simp only [scenarioFolds]
  rw [mkFoldResult_wins 0.2 0.115 (by norm_num)]

/-- Claim C1, counterexample: with three completed folds whose candidate
Brier scores average `0.1` and two candidate wins, the code's verdict is
PASS, yet the claim's predicate (wins at least `ceil(0.8 × 3) = 3`) fails;
moreover the code's wins threshold at three folds is `2`, not
`ceil(0.8 × 3)`. -/
theorem acceptance_gate_ceil_counterexample :
    acceptanceVerdict cexFolds = true ∧
    ¬(hierBrierMean cexFolds ≤ 0.125 ∧
        Nat.ceil ((0.8 : ℚ) * (cexFolds.length : ℚ)) ≤ winsCount cexFolds) ∧
    winsThreshold cexFolds.length ≠
      Nat.ceil ((0.8 : ℚ) * (cexFolds.length : ℚ)) := by
  have hmean : hierBrierMean cexFolds = 1 / 10 := by
    rw [cexFolds_eval]
    norm_num [hierBrierMean]
  have hwins : winsCount cexFolds = 2 := by
    rw [cexFolds_eval]
    norm_num [winsCount, List.filter]
  have hlen : cexFolds.length = 3 := by rw [cexFolds_eval]; rfl
  have hceil : Nat.ceil ((0.8 : ℚ) * ((3 : ℕ) : ℚ)) = 3 := by
    rw [show (0.8 : ℚ) * ((3 : ℕ) : ℚ) = 12 / 5 by norm_num,
      Nat.ceil_eq_iff (by norm_num)]
    norm_num
  refine ⟨?_, ?_, ?_⟩
  · simp only [acceptanceVerdict, hmean, hlen, hwins, winsThreshold]
    norm_num
  · rw [hmean, hlen, hwins, hceil]
    norm_num
  · rw [hlen, hceil]
    norm_num [winsThreshold]

/-- Claim C1 as amended (proved): the aggregate verdict is PASS iff the
mean candidate Brier score over the completed folds is at most `0.125` and
the candidate's wins count is at least `max(1, floor(0.8 × fold-count))`
(the code truncates `0.8 × total_folds` with `int(...)` and floors it at
one, rather than taking a ceiling); in particular the §8 five-fold
scenario (mean `0.115`, five wins out of five) passes. -/
theorem acceptance_gate_amended :
    (∀ folds : List FoldResult, folds ≠ [] →
      (acceptanceVerdict folds = true ↔
        hierBrierMean folds ≤ 0.125 ∧
          max 1 (4 * folds.length / 5) ≤ winsCount folds)) ∧
    acceptanceVerdict scenarioFolds = true := by
  refine ⟨fun folds _ => ?_, ?_⟩
  · simp [acceptanceVerdict, winsThreshold]
  · rw [scenarioFolds_eval]
    norm_num [acceptanceVerdict, hierBrierMean, winsCount, winsThreshold,
      List.filter]

/-- Witness for C1 (amended) at the five-fold scenario. -/
theorem acceptance_gate_amended_witness :
    scenarioFolds ≠ [] ∧
    (acceptanceVerdict scenarioFolds = true ↔
      hierBrierMean scenarioFolds ≤ 0.125 ∧
        max 1 (4 * scenarioFolds.length / 5) ≤ winsCount scenarioFolds) :=
  ⟨by decide, acceptance_gate_amended.1 scenarioFolds (by decide)⟩

/-- Claim C2 (code bug): on a database whose only flight for route
`AA JFK→LAX` is the 2023 **test-window** flight itself, the baseline
evaluation records `0.75` as the prediction for that flight — its prior
`(1.5, 0.5)` already counts the flight's own late outcome, because
`_evaluate_baseline_model` computes the prior with
`compute_beta_prior(..., self.db_path)` over the whole database and never
uses its `train_df` argument (the training window, 2019–2022 here, is
empty).  Under the spec's training-window prior the recorded prediction
is the Jeffreys `0.5`. -/
theorem baseline_prior_leakage :
    evaluateBaselineModel leakDb
        (leakDb.filter fun r => decide (r.year ≤ 2022))
        (leakDb.filter fun r => decide (r.year = 2023)) = [(3/4, true)] ∧
    evaluateBaselineSpec
        (leakDb.filter fun r => decide (r.year ≤ 2022))
        (leakDb.filter fun r => decide (r.year = 2023)) = [(1/2, true)] := by
  constructor <;>
    norm_num [evaluateBaselineModel, evaluateBaselineSpec, distinctRoutes,
      leakDb, leakRow, Row.routeKey, routeMatches, queryCounts,
      computeBetaPriorRows, compute_beta_prior, sortByDate, insertByDate,
      processFlights, BetaBinomialModel.predictive_p_on_time,
      BetaBinomialModel.updateLate, List.filter, List.foldl]

/-! ### Theorems: tiered orchestrator (claim C10) -/

/-- Claim C10 (confirmed): whenever the forecast is produced by a
non-baseline tier (hierarchical or fast classifier), the returned `alpha`
and `beta` are the fixed dummies `1.0` and `1.0`; only when the Tier-3
conjugate baseline produces the forecast do `alpha` and `beta` carry the
actual posterior parameters (the fields are non-nullable by type). -/
theorem forecast_alpha_beta_dummy (inp : ForecastInputs) :
    ((forecast_probability inp).provenance ≠ Provenance.baseline →
      (forecast_probability inp).alpha = 1 ∧
        (forecast_probability inp).beta = 1) ∧
    ((forecast_probability inp).provenance = Provenance.baseline →
      (forecast_probability inp).alpha = (baselinePosterior inp).alpha ∧
        (forecast_probability inp).beta = (baselinePosterior inp).beta) := by
  unfold forecast_probability
  cases h1 : tier1Result inp with
  | some p => simp
  | none =>
      cases h2 : tier2Result inp with
      | some p => simp
      | none => simp

/-- Witness for C10: a forecast served by the fast classifier carries the
dummy parameters. -/
theorem forecast_alpha_beta_dummy_witness :
    (forecast_probability fastInputs).provenance ≠ Provenance.baseline ∧
    (forecast_probability fastInputs).alpha = 1 ∧
    (forecast_probability fastInputs).beta = 1 :=
  ⟨by decide, (forecast_alpha_beta_dummy fastInputs).1 (by decide)⟩

/-! ### Theorems: delay-distribution model (claims C5, C6, C4, C3) -/

/-- Claim C5 (confirmed): `predict_delay` returns `mean_ontime_delay` up
to `threshold_prob` and the linear interpolation with
`progress = (p - threshold_prob) / (1 - threshold_prob)` above it; on the
scenario curve `(2, 25, 0.3)` it returns `2` at `0.1` and `0.3`, `25` at
`1`, and a value strictly between `2` and `25` at `0.65`. -/
theorem predict_delay_piecewise :
    (∀ (c : DelayCurve) (p : ℝ), p ≤ c.threshold_prob →
      c.predict_delay p = c.mean_ontime_delay) ∧
    (∀ (c : DelayCurve) (p : ℝ), c.threshold_prob < p →
      c.predict_delay p =
        c.mean_ontime_delay +
          (p - c.threshold_prob) / (1 - c.threshold_prob) *
            (c.mean_late_delay - c.mean_ontime_delay)) ∧
    scenarioCurve.predict_delay 0.1 = 2 ∧
    scenarioCurve.predict_delay 0.3 = 2 ∧
    scenarioCurve.predict_delay 1 = 25 ∧
    2 < scenarioCurve.predict_delay 0.65 ∧
    scenarioCurve.predict_delay 0.65 < 25 := by
  have hlo : ∀ (c : DelayCurve) (p : ℝ), p ≤ c.threshold_prob →
      c.predict_delay p = c.mean_ontime_delay := by
    intro c p h
    simp only [DelayCurve.predict_delay, if_pos h]
  have hhi : ∀ (c : DelayCurve) (p : ℝ), c.threshold_prob < p →
      c.predict_delay p =
        c.mean_ontime_delay +
          (p - c.threshold_prob) / (1 - c.threshold_prob) *
            (c.mean_late_delay - c.mean_ontime_delay) := by
    intro c p h
    simp only [DelayCurve.predict_delay, if_neg (not_le.mpr h)]
  have h65 : scenarioCurve.predict_delay 0.65 = 13.5 := by
    rw [hhi scenarioCurve 0.65 (by norm_num [scenarioCurve])]
    norm_num [scenarioCurve]
  refine ⟨hlo, hhi, ?_, ?_, ?_, ?_, ?_⟩
  · rw [hlo scenarioCurve 0.1 (by norm_num [scenarioCurve])]
    norm_num [scenarioCurve]
  · rw [hlo scenarioCurve 0.3 (by norm_num [scenarioCurve])]
    norm_num [scenarioCurve]
  · rw [hhi scenarioCurve 1 (by norm_num [scenarioCurve])]
    norm_num [scenarioCurve]
  · rw [h65]; norm_num
  · rw [h65]; norm_num

/-- Witness for C5 at concrete points of the scenario curve. -/
theorem predict_delay_piecewise_witness :
    (0.1 : ℝ) ≤ scenarioCurve.threshold_prob ∧
    scenarioCurve.predict_delay 0.1 = scenarioCurve.mean_ontime_delay ∧
    scenarioCurve.threshold_prob < 1 ∧
    scenarioCurve.predict_delay 1 =
      scenarioCurve.mean_ontime_delay +
        (1 - scenarioCurve.threshold_prob) / (1 - scenarioCurve.threshold_prob) *
          (scenarioCurve.mean_late_delay - scenarioCurve.mean_ontime_delay) :=
  ⟨by norm_num [scenarioCurve],
    predict_delay_piecewise.1 scenarioCurve 0.1 (by norm_num [scenarioCurve]),
    by norm_num [scenarioCurve],
    predict_delay_piecewise.2.1 scenarioCurve 1 (by norm_num [scenarioCurve])⟩

/-- Claim C6, counterexample: the constructor validates nothing, so with a
negative on-time mean delay `predict_delay` returns a negative value, and
with a threshold probability above 1 it is not monotone. -/
theorem predict_delay_nonneg_counterexample :
    negCurve.predict_delay 0.1 < 0 ∧
    ((5 / 2 : ℝ) ≤ 3 ∧
      highThresholdCurve.predict_delay 3 <
        highThresholdCurve.predict_delay (5 / 2)) := by
  refine ⟨?_, by norm_num, ?_⟩
  · simp only [DelayCurve.predict_delay, negCurve]
    rw [if_pos (by norm_num)]
    norm_num
  · simp only [DelayCurve.predict_delay, highThresholdCurve]
    rw [if_neg (by norm_num), if_neg (by norm_num)]
    norm_num

/-- Claim C6 as amended (proved): for curves with
`0 ≤ mean_ontime_delay ≤ mean_late_delay` and `threshold_prob < 1`
(the bounds the offline curve computation in fact guarantees for its
threshold, and the spec's intent for the delay means), `predict_delay` is
non-negative everywhere and monotonically non-decreasing. -/
theorem predict_delay_nonneg_monotone_amended (c : DelayCurve)
    (h0 : 0 ≤ c.mean_ontime_delay)
    (h1 : c.mean_ontime_delay ≤ c.mean_late_delay)
    (h2 : c.threshold_prob < 1) :
    (∀ p : ℝ, 0 ≤ c.predict_delay p) ∧
    (∀ p q : ℝ, p ≤ q → c.predict_delay p ≤ c.predict_delay q) := by
  have hpos : (0 : ℝ) < 1 - c.threshold_prob := by linarith
  have key : ∀ p : ℝ, c.threshold_prob < p →
      c.predict_delay p =
        c.mean_ontime_delay +
          (p - c.threshold_prob) / (1 - c.threshold_prob) *
            (c.mean_late_delay - c.mean_ontime_delay) := by
    intro p hp
    simp only [DelayCurve.predict_delay, if_neg (not_le.mpr hp)]
  have term_nonneg : ∀ p : ℝ, c.threshold_prob < p →
      0 ≤ (p - c.threshold_prob) / (1 - c.threshold_prob) *
        (c.mean_late_delay - c.mean_ontime_delay) := by
    intro p hp
    exact mul_nonneg (div_nonneg (by linarith) hpos.le) (by linarith)
  have keylo : ∀ p : ℝ, p ≤ c.threshold_prob →
      c.predict_delay p = c.mean_ontime_delay := by
    intro p hp
    simp only [DelayCurve.predict_delay, if_pos hp]
  constructor
  · intro p
    by_cases hp : p ≤ c.threshold_prob
    · rw [keylo p hp]
      exact h0
    · push_neg at hp
      rw [key p hp]
      have := term_nonneg p hp
      linarith
  · intro p q hpq
    by_cases hq : q ≤ c.threshold_prob
    · have hp : p ≤ c.threshold_prob := le_trans hpq hq
      rw [keylo p hp, keylo q hq]
    · push_neg at hq
      by_cases hp : p ≤ c.threshold_prob
      · rw [keylo p hp, key q hq]
        have := term_nonneg q hq
        linarith
      · push_neg at hp
        rw [key p hp, key q hq]
        have hdiv : (p - c.threshold_prob) / (1 - c.threshold_prob) ≤
            (q - c.threshold_prob) / (1 - c.threshold_prob) := by
          gcongr
        have := mul_le_mul_of_nonneg_right hdiv
          (by linarith : 0 ≤ c.mean_late_delay - c.mean_ontime_delay)
        linarith

/-- Witness for C6 (amended) on the scenario curve. -/
theorem predict_delay_nonneg_monotone_amended_witness :
    0 ≤ scenarioCurve.mean_ontime_delay ∧
    scenarioCurve.mean_ontime_delay ≤ scenarioCurve.mean_late_delay ∧
    scenarioCurve.threshold_prob < 1 ∧
    ((∀ p : ℝ, 0 ≤ scenarioCurve.predict_delay p) ∧
      (∀ p q : ℝ, p ≤ q →
        scenarioCurve.predict_delay p ≤ scenarioCurve.predict_delay q)) :=
  ⟨by norm_num [scenarioCurve], by norm_num [scenarioCurve],
    by norm_num [scenarioCurve],
    predict_delay_nonneg_monotone_amended scenarioCurve
      (by norm_num [scenarioCurve]) (by norm_num [scenarioCurve])
      (by norm_num [scenarioCurve])⟩

/-- One step of the 80%-cap clamp pipeline cannot exceed the clamped value
of the previous threshold. -/
theorem clamp_next (z m : ℝ) (hm : 0 ≤ m) :
    max 0 (min z (m * 0.8)) ≤ max 0 m := by
  refine max_le_max le_rfl ?_
  exact le_trans (min_le_right _ _) (by linarith)

/-- Claim C4 (confirmed): for every `p ∈ [0, 1]` the returned
probabilities satisfy `p15 = p` exactly and
`p15 ≥ p30 ≥ p45 ≥ p60 ≥ 0` with `p15 ≤ 1`, hence all four lie in
`[0, 1]`, in both the low-expected-delay and exponential-survival
regimes. -/
theorem threshold_probs_monotone_bounds (c : DelayCurve) (p : ℝ)
    (h0 : 0 ≤ p) (h1 : p ≤ 1) :
    (c.predict_threshold_probabilities p).p_late_15 = p ∧
    (c.predict_threshold_probabilities p).p_late_30 ≤
      (c.predict_threshold_probabilities p).p_late_15 ∧
    (c.predict_threshold_probabilities p).p_late_45 ≤
      (c.predict_threshold_probabilities p).p_late_30 ∧
    (c.predict_threshold_probabilities p).p_late_60 ≤
      (c.predict_threshold_probabilities p).p_late_45 ∧
    0 ≤ (c.predict_threshold_probabilities p).p_late_60 ∧
    (c.predict_threshold_probabilities p).p_late_15 ≤ 1 := by
  simp only [DelayCurve.predict_threshold_probabilities]
  by_cases hed : c.predict_delay p < 15
  · simp only [if_pos hed]
    exact ⟨trivial, by linarith, by linarith, by linarith, by linarith, h1⟩
  · simp only [if_neg hed]
    refine ⟨trivial,
      max_le h0 (le_trans (min_le_right _ _) (by linarith)),
      clamp_next _ _ (le_min (mul_nonneg h0 (Real.exp_pos _).le)
        (mul_nonneg h0 (by norm_num))),
      clamp_next _ _ (le_min (mul_nonneg h0 (Real.exp_pos _).le)
        (mul_nonneg (le_min (mul_nonneg h0 (Real.exp_pos _).le)
          (mul_nonneg h0 (by norm_num))) (by norm_num))),
      le_max_left 0 _, h1⟩

/-- Witness for C4 on the scenario curve at `p = 1/2`. -/
theorem threshold_probs_monotone_bounds_witness :
    0 ≤ (1 / 2 : ℝ) ∧ (1 / 2 : ℝ) ≤ 1 ∧
    ((scenarioCurve.predict_threshold_probabilities (1 / 2)).p_late_15 = 1 / 2 ∧
      (scenarioCurve.predict_threshold_probabilities (1 / 2)).p_late_30 ≤
        (scenarioCurve.predict_threshold_probabilities (1 / 2)).p_late_15 ∧
      (scenarioCurve.predict_threshold_probabilities (1 / 2)).p_late_45 ≤
        (scenarioCurve.predict_threshold_probabilities (1 / 2)).p_late_30 ∧
      (scenarioCurve.predict_threshold_probabilities (1 / 2)).p_late_60 ≤
        (scenarioCurve.predict_threshold_probabilities (1 / 2)).p_late_45 ∧
      0 ≤ (scenarioCurve.predict_threshold_probabilities (1 / 2)).p_late_60 ∧
      (scenarioCurve.predict_threshold_probabilities (1 / 2)).p_late_15 ≤ 1) :=
  ⟨by norm_num, by norm_num,
    threshold_probs_monotone_bounds scenarioCurve (1 / 2) (by norm_num)
      (by norm_num)⟩

/-- The expCurve gives expected delay exactly 30 at input probability 1. -/
theorem expCurve_delay : expCurve.predict_delay 1 = 30 := by
  simp only [DelayCurve.predict_delay, expCurve]
  rw [if_neg (by norm_num)]
  norm_num

/-- The code's decay exponent at `expCurve`, input 1, for the 30-minute
threshold, as one rational literal. -/
theorem code_exponent_value :
    -(0.693 / ((30 : ℝ) - 15 + 1e-6)) * (30 - 15) = -(10395000 / 15000001) := by
  norm_num

/-- The code-side exponential factor is strictly below `0.8`, so the 80%
cap does not bite at this input, and strictly below `ln 2`-anchored
halving. -/
theorem code_factor_lt :
    Real.exp (-(10395000 / 15000001 : ℝ)) < 0.8 := by
  have hx : (0 : ℝ) < 10395000 / 15000001 := by norm_num
  have hE : (5 / 4 : ℝ) < Real.exp (10395000 / 15000001) := by
    have h := Real.add_one_lt_exp (x := (10395000 / 15000001 : ℝ)) hx.ne'
    have : (5 / 4 : ℝ) < 10395000 / 15000001 + 1 := by norm_num
    linarith
  have hEpos : (0 : ℝ) < Real.exp (10395000 / 15000001) := Real.exp_pos _
  rw [Real.exp_neg]
  have hprod := mul_pos (sub_pos.mpr hE) (inv_pos.mpr hEpos)
  have hcancel := mul_inv_cancel₀ (ne_of_gt hEpos)
  nlinarith

/-- Claim C3, counterexample: at the curve `(0, 30, 1/2)` and input 1 the
expected delay is `30 ≥ 15`, yet the returned 30-minute probability
differs from the value of the spec's `λ = ln 2 / (expected_delay - 15)`
model (with identical clamps): the source uses the constant `0.693` and a
`1e-6` denominator guard, so its exponent `-0.693·15/15.000001` is not
`-ln 2` and the anchor `P(delay ≥ expected_delay) = 0.5` holds only
approximately. -/
theorem threshold_probs_log_two_counterexample :
    15 ≤ expCurve.predict_delay 1 ∧
    (expCurve.predict_threshold_probabilities 1).p_late_30 ≠
      (specThresholdProbs expCurve 1).p_late_30 := by
  have hpd := expCurve_delay
  have hhalf : Real.exp (-Real.log 2) = 1 / 2 := by
    rw [Real.exp_neg, Real.exp_log (by norm_num : (0 : ℝ) < 2)]
    norm_num
  have hspec : (specThresholdProbs expCurve 1).p_late_30 = 1 / 2 := by
    simp only [specThresholdProbs, hpd]
    rw [show Real.log 2 / ((30 : ℝ) - 15) * 15 = Real.log 2 by
      rw [show ((30 : ℝ) - 15) = 15 by norm_num,
        div_mul_cancel₀ _ (by norm_num : (15 : ℝ) ≠ 0)]]
    rw [one_mul, hhalf, one_mul]
    rw [min_eq_left (by norm_num), max_eq_right (by norm_num)]
  have hcode : (expCurve.predict_threshold_probabilities 1).p_late_30 =
      Real.exp (-(10395000 / 15000001 : ℝ)) := by
    simp only [DelayCurve.predict_threshold_probabilities, hpd]
    rw [if_neg (by norm_num), if_pos (by norm_num)]
    simp only [one_mul]
    rw [code_exponent_value]
    rw [min_eq_left code_factor_lt.le,
      max_eq_right (Real.exp_pos _).le]
  refine ⟨by rw [hpd]; norm_num, ?_⟩
  rw [hspec, hcode, ← hhalf]
  intro h
  have harg := neg_injective (Real.exp_eq_exp.mp h)
  have hlt : (10395000 / 15000001 : ℝ) < Real.log 2 := by
    have h9 := Real.log_two_gt_d9
    have : (10395000 / 15000001 : ℝ) < 0.6931471803 := by norm_num
    linarith
  rw [harg] at hlt
  exact lt_irrefl _ hlt

/-- Claim C3 as amended (proved): whenever the expected delay is at least
15 minutes, the returned probabilities are exactly the clamp pipeline
applied to `p30 = p15·e^{-λ·15}`, `p45 = p15·e^{-λ·30}`,
`p60 = p15·e^{-λ·45}` with `λ = 0.693 / (expected_delay - 15 + 1e-6)`
when the expected delay exceeds 15 and `λ = 1` at exactly 15 — the source
approximates `ln 2` by `0.693` and guards the denominator with `1e-6`, so
the survival model is anchored near, not exactly at,
`P(delay ≥ expected_delay) = 0.5`. -/
theorem threshold_probs_amended (c : DelayCurve) (p : ℝ)
    (h : 15 ≤ c.predict_delay p) :
    c.predict_threshold_probabilities p =
      { p_late_15 := p
        p_late_30 := max 0 (min (p * Real.exp (-(codeLambda c p * 15)))
          (p * 0.8))
        p_late_45 := max 0 (min (p * Real.exp (-(codeLambda c p * 30)))
          (min (p * Real.exp (-(codeLambda c p * 15))) (p * 0.8) * 0.8))
        p_late_60 := max 0 (min (p * Real.exp (-(codeLambda c p * 45)))
          (min (p * Real.exp (-(codeLambda c p * 30)))
            (min (p * Real.exp (-(codeLambda c p * 15))) (p * 0.8) * 0.8) *
              0.8)) } := by
  simp only [DelayCurve.predict_threshold_probabilities, codeLambda,
    if_neg (not_lt.mpr h)]
  have e1 : ∀ L : ℝ, -L * ((30 : ℝ) - 15) = -(L * 15) := fun L => by ring
  have e2 : ∀ L : ℝ, -L * ((45 : ℝ) - 15) = -(L * 30) := fun L => by ring
  have e3 : ∀ L : ℝ, -L * ((60 : ℝ) - 15) = -(L * 45) := fun L => by ring
  rw [e1, e2, e3]

/-- Witness for C3 (amended) at `expCurve` and input 1, where the
expected delay is 30. -/
theorem threshold_probs_amended_witness :
    15 ≤ expCurve.predict_delay 1 ∧
    expCurve.predict_threshold_probabilities 1 =
      { p_late_15 := 1
        p_late_30 := max 0 (min (1 * Real.exp (-(codeLambda expCurve 1 * 15)))
          (1 * 0.8))
        p_late_45 := max 0 (min (1 * Real.exp (-(codeLambda expCurve 1 * 30)))
          (min (1 * Real.exp (-(codeLambda expCurve 1 * 15))) (1 * 0.8) * 0.8))
        p_late_60 := max 0 (min (1 * Real.exp (-(codeLambda expCurve 1 * 45)))
          (min (1 * Real.exp (-(codeLambda expCurve 1 * 30)))
            (min (1 * Real.exp (-(codeLambda expCurve 1 * 15))) (1 * 0.8) *
              0.8) * 0.8)) } :=
  ⟨by rw [expCurve_delay]; norm_num,
    threshold_probs_amended expCurve 1 (by rw [expCurve_delay]; norm_num)⟩

end FlightDelay
